import Mathlib

/-!
Verification development for the `dstack-mr-gcp` measurement engine.

The Go sources are shallowly embedded over `List Nat`, each element a byte
(the embedding never relies on entries being < 256 unless produced by the
little-endian encoders below, which truncate explicitly).  Machine `uint64`
arithmetic is modelled as `Nat` with explicit `% 2^64`; fallible Go code
(errors and panics) is modelled with `Except String`/`Option`.
-/

namespace DstackMr

/-- 2^64, the modulus of Go `uint64` arithmetic. -/
def M64 : Nat := 18446744073709551616

/-- Little-endian encoding of a 16-bit value (Go `binary.LittleEndian.PutUint16`). -/
def u16le (x : Nat) : List Nat := [x % 256, x / 256 % 256]

/-- Little-endian encoding of a 32-bit value (Go `binary.LittleEndian.PutUint32`). -/
def u32le (x : Nat) : List Nat :=
  [x % 256, x / 256 % 256, x / 65536 % 256, x / 16777216 % 256]

/-- Little-endian encoding of a 64-bit value (Go `binary.LittleEndian.PutUint64`). -/
def u64le (x : Nat) : List Nat :=
  [x % 256, x / 256 % 256, x / 65536 % 256, x / 16777216 % 256,
   x / 4294967296 % 256, x / 1099511627776 % 256,
   x / 281474976710656 % 256, x / 72057594037927936 % 256]

/-- Big-endian encoding of a 64-bit value (used by SHA-512/384 output). -/
def u64be (x : Nat) : List Nat :=
  [x / 72057594037927936 % 256, x / 281474976710656 % 256,
   x / 1099511627776 % 256, x / 4294967296 % 256,
   x / 16777216 % 256, x / 65536 % 256, x / 256 % 256, x % 256]

/-- `l[off : off+n]` as a total function on lists (Go slicing; out-of-range
reads are guarded by explicit bounds checks at the call sites that model Go
panics). -/
def listSlice (l : List Nat) (off n : Nat) : List Nat := (l.drop off).take n

/-- Overwrite `new.length` bytes of `l` starting at `off`
(Go `copy(l[off:off+len(new)], new)` for in-range arguments). -/
def listOverwrite (l : List Nat) (off : Nat) (new : List Nat) : List Nat :=
  l.take off ++ new ++ l.drop (off + new.length)

/-- Read a little-endian `uint16` at byte offset `off` (Go `binary.LittleEndian.Uint16`). -/
def leUint16 (l : List Nat) (off : Nat) : Nat :=
  l.getD off 0 + 256 * l.getD (off + 1) 0

/-- Read a little-endian `uint32` at byte offset `off` (Go `binary.LittleEndian.Uint32`). -/
def leUint32 (l : List Nat) (off : Nat) : Nat :=
  l.getD off 0 + 256 * l.getD (off + 1) 0 + 65536 * l.getD (off + 2) 0 +
    16777216 * l.getD (off + 3) 0

/-- Read a little-endian `uint64` at byte offset `off` (Go `binary.LittleEndian.Uint64`). -/
def leUint64 (l : List Nat) (off : Nat) : Nat :=
  leUint32 l off + 4294967296 * leUint32 l (off + 4)

/-- Value of one hexadecimal digit.  Go's `hex.DecodeString` rejects other
characters (the caller `encodeGUID` panics); every call site in the sources
passes valid hexadecimal literals, so the total model maps invalid digits
to 0. -/
def hexDigit (c : Char) : Nat :=
  if c.toNat ≥ 48 ∧ c.toNat ≤ 57 then c.toNat - 48
  else if c.toNat ≥ 97 ∧ c.toNat ≤ 102 then c.toNat - 87
  else if c.toNat ≥ 65 ∧ c.toNat ≤ 70 then c.toNat - 55
  else 0

/-- Hex-decode a character list two digits per byte (Go `hex.DecodeString`). -/
def hexDecodeChars : List Char → List Nat
  | c1 :: c2 :: rest => (16 * hexDigit c1 + hexDigit c2) :: hexDecodeChars rest
  | _ => []

/-- Split a character list on the dash character
(Go `strings.Split(guid, "-")`, structurally recursive for kernel reduction). -/
def splitDash : List Char → List (List Char)
  | [] => [[]]
  | c :: rest =>
    match splitDash rest with
    | [] => if c.toNat = 45 then [[], []] else [[c]]
    | g :: gs => if c.toNat = 45 then [] :: g :: gs else (c :: g) :: gs

/-- `encodeGUID` encodes an UEFI GUID into binary form: the first three
dash-separated groups are byte-reversed (little-endian), the last two copied
as-is (Go `encodeGUID` in `internal/mr.go`; malformed hex makes Go panic,
every call site uses a valid literal). -/
def encodeGUID (guid : String) : List Nat :=
  ((splitDash guid.data).enum.map fun p =>
    if p.1 ≤ 2 then (hexDecodeChars p.2).reverse else hexDecodeChars p.2).flatten

/-- UTF-8 encoding of one character (Go `[]byte(string)` conversion). -/
def utf8EncodeChar (c : Char) : List Nat :=
  let n := c.toNat
  if n < 128 then [n]
  else if n < 2048 then [192 + n / 64, 128 + n % 64]
  else if n < 65536 then [224 + n / 4096, 128 + n / 64 % 64, 128 + n % 64]
  else [240 + n / 262144, 128 + n / 4096 % 64, 128 + n / 64 % 64, 128 + n % 64]

/-- UTF-8 bytes of a string (Go `[]byte(s)`). -/
def utf8Bytes (s : String) : List Nat := (s.data.map utf8EncodeChar).flatten

/-- UTF-16 little-endian encoding of a character sequence, surrogate pairs for
characters beyond the BMP (Go `unicode.UTF16(LittleEndian, IgnoreBOM)`
encoder). -/
def utf16leChars : List Char → List Nat
  | [] => []
  | c :: rest =>
    (if c.toNat < 65536 then [c.toNat % 256, c.toNat / 256 % 256]
     else
       let v := c.toNat - 65536
       let hi := 55296 + v / 1024
       let lo := 56320 + v % 1024
       [hi % 256, hi / 256 % 256, lo % 256, lo / 256 % 256]) ++ utf16leChars rest

/-! ## SHA-384 (Go `crypto/sha512.Sum384` / `sha512.New384`)

A direct executable model of FIPS 180-4 SHA-384 over byte lists, with 64-bit
words as `Nat % 2^64`. -/

/-- Truncate to a 64-bit word. -/
def w64 (x : Nat) : Nat := x % M64

/-- 64-bit right rotation. -/
def rotr64 (x n : Nat) : Nat := w64 (x / 2 ^ n + x * 2 ^ (64 - n))

/-- 64-bit exclusive or. -/
def x64 (a b : Nat) : Nat := Nat.xor a b

/-- SHA-512 big sigma 0. -/
def bSig0 (x : Nat) : Nat := x64 (rotr64 x 28) (x64 (rotr64 x 34) (rotr64 x 39))

/-- SHA-512 big sigma 1. -/
def bSig1 (x : Nat) : Nat := x64 (rotr64 x 14) (x64 (rotr64 x 18) (rotr64 x 41))

/-- SHA-512 small sigma 0. -/
def sSig0 (x : Nat) : Nat := x64 (rotr64 x 1) (x64 (rotr64 x 8) (x / 128))

/-- SHA-512 small sigma 1. -/
def sSig1 (x : Nat) : Nat := x64 (rotr64 x 19) (x64 (rotr64 x 61) (x / 64))

/-- SHA-512 choose function. -/
def shaCh (x y z : Nat) : Nat := x64 (Nat.land x y) (Nat.land (M64 - 1 - x) z)

/-- SHA-512 majority function. -/
def shaMaj (x y z : Nat) : Nat :=
  x64 (Nat.land x y) (x64 (Nat.land x z) (Nat.land y z))

/-- The eighty SHA-512 round constants of FIPS 180-4 section 4.2.3 (the
first 64 bits of the fractional parts of the cube roots of the first eighty
primes), written in decimal. -/
def sha512K : List Nat :=
  [4794697086780616226, 8158064640168781261, 13096744586834688815,
   16840607885511220156, 4131703408338449720, 6480981068601479193,
   10538285296894168987, 12329834152419229976, 15566598209576043074,
   1334009975649890238, 2608012711638119052, 6128411473006802146,
   8268148722764581231, 9286055187155687089, 11230858885718282805,
   13951009754708518548, 16472876342353939154, 17275323862435702243,
   1135362057144423861, 2597628984639134821, 3308224258029322869,
   5365058923640841347, 6679025012923562964, 8573033837759648693,
   10970295158949994411, 12119686244451234320, 12683024718118986047,
   13788192230050041572, 14330467153632333762, 15395433587784984357,
   489312712824947311, 1452737877330783856, 2861767655752347644,
   3322285676063803686, 5560940570517711597, 5996557281743188959,
   7280758554555802590, 8532644243296465576, 9350256976987008742,
   10552545826968843579, 11727347734174303076, 12113106623233404929,
   14000437183269869457, 14369950271660146224, 15101387698204529176,
   15463397548674623760, 17586052441742319658, 1182934255886127544,
   1847814050463011016, 2177327727835720531, 2830643537854262169,
   3796741975233480872, 4115178125766777443, 5681478168544905931,
   6601373596472566643, 7507060721942968483, 8399075790359081724,
   8693463985226723168, 9568029438360202098, 10144078919501101548,
   10430055236837252648, 11840083180663258601, 13761210420658862357,
   14299343276471374635, 14566680578165727644, 15097957966210449927,
   16922976911328602910, 17689382322260857208, 500013540394364858,
   748580250866718886, 1242879168328830382, 1977374033974150939,
   2944078676154940804, 3659926193048069267, 4368137639120453308,
   4836135668995329356, 5532061633213252278, 6448918945643986474,
   6902733635092675308, 7801388544844847127]

/-- Hash state of the SHA-512 family: eight 64-bit words. -/
structure Sha512State where
  a : Nat
  b : Nat
  c : Nat
  d : Nat
  e : Nat
  f : Nat
  g : Nat
  h : Nat

/-- SHA-384 initial hash value (FIPS 180-4 section 5.3.4), in decimal. -/
def sha384Init : Sha512State :=
  ⟨14680500436340154072, 7105036623409894663, 10473403895298186519,
   1526699215303891257, 7436329637833083697, 10282925794625328401,
   15784041429090275239, 5167115440072839076⟩

/-- One SHA-512 round. -/
def sha512Round (s : Sha512State) (kw : Nat) : Sha512State :=
  let t1 := w64 (s.h + bSig1 s.e + shaCh s.e s.f s.g + kw)
  let t2 := w64 (bSig0 s.a + shaMaj s.a s.b s.c)
  ⟨w64 (t1 + t2), s.a, s.b, s.c, w64 (s.d + t1), s.e, s.f, s.g⟩

/-- Extend sixteen message words to the full eighty-word schedule. -/
def sha512Schedule (acc : List Nat) : Nat → List Nat
  | 0 => acc
  | n + 1 =>
    let k := acc.length
    let nw := w64 (sSig1 (acc.getD (k - 2) 0) + acc.getD (k - 7) 0 +
      sSig0 (acc.getD (k - 15) 0) + acc.getD (k - 16) 0)
    sha512Schedule (acc ++ [nw]) n

/-- Split a byte list into big-endian 64-bit words. -/
def beWords : List Nat → List Nat
  | [] => []
  | c :: rest =>
    (((c :: rest).take 8).foldl (fun a b => a * 256 + b) 0) :: beWords (rest.drop 7)
  termination_by l => l.length
  decreasing_by simp [List.length_drop]; omega

/-- Compress one 128-byte block into the state. -/
def sha512Compress (s : Sha512State) (block : List Nat) : Sha512State :=
  let ws := sha512Schedule (beWords block) 64
  let r := (sha512K.zip ws).foldl (fun st kw => sha512Round st (w64 (kw.1 + kw.2))) s
  ⟨w64 (s.a + r.a), w64 (s.b + r.b), w64 (s.c + r.c), w64 (s.d + r.d),
   w64 (s.e + r.e), w64 (s.f + r.f), w64 (s.g + r.g), w64 (s.h + r.h)⟩

/-- Split a byte list into 128-byte blocks. -/
def blocks128 : List Nat → List (List Nat)
  | [] => []
  | c :: rest => (c :: rest).take 128 :: blocks128 (rest.drop 127)
  termination_by l => l.length
  decreasing_by simp [List.length_drop]; omega

/-- SHA-2 padding: a 0x80 byte, zeros, and the 128-bit big-endian bit length,
to a multiple of 128 bytes. -/
def sha512Pad (msg : List Nat) : List Nat :=
  let padZeros := (128 - (msg.length + 17) % 128) % 128
  msg ++ [128] ++ List.replicate padZeros 0 ++
    u64be (8 * msg.length / M64) ++ u64be (8 * msg.length % M64)

/-- SHA-384 digest (48 bytes) of a byte list. -/
def sha384 (msg : List Nat) : List Nat :=
  let fin := ((sha512Pad msg |> blocks128).foldl sha512Compress sha384Init)
  u64be fin.a ++ u64be fin.b ++ u64be fin.c ++ u64be fin.d ++ u64be fin.e ++ u64be fin.f

/-- `measureSha384` computes a SHA384 of the given blob (`internal/mr.go`). -/
def measureSha384 (data : List Nat) : List Nat := sha384 data

/-! ## Keccak-256 (Go `golang.org/x/crypto/sha3.NewLegacyKeccak256`)

Executable model of the original Keccak-256 (0x01 domain padding), with the
25 lanes of the state as a `List Nat` of 64-bit words, lane `x + 5*y`. -/

/-- 64-bit left rotation. -/
def rotl64 (x n : Nat) : Nat := w64 (x * 2 ^ (n % 64) + x / 2 ^ (64 - n % 64))

/-- 64-bit bitwise complement. -/
def not64 (x : Nat) : Nat := M64 - 1 - w64 x

/-- Bit `t` of the Keccak round-constant LFSR over
`x^8 + x^6 + x^5 + x^4 + 1` (FIPS 202 algorithm 5, `rc(t)`). -/
def keccakRcBit (t : Nat) : Nat :=
  ((List.range t).foldl
    (fun r _ => if 2 * r < 256 then 2 * r else Nat.xor (2 * r) 369) 1) % 2

/-- The 24 Keccak-f[1600] round constants, generated by the LFSR: the
`j`-th bit of `RC[i]` at position `2^j - 1` is `rc(7*i + j)`. -/
def keccakRC : List Nat :=
  (List.range 24).map fun i =>
    (List.range 7).foldl (fun acc j => acc + keccakRcBit (7 * i + j) * 2 ^ (2 ^ j - 1)) 0

/-- Replace element `i` of a list. -/
def listSet (l : List Nat) (i v : Nat) : List Nat :=
  l.take i ++ [v] ++ l.drop (i + 1)

/-- The Keccak rotation offsets, indexed by lane `x + 5*y` and generated by
the standard recurrence: starting from lane (1,0), step `t` assigns offset
`(t+1)(t+2)/2 mod 64` and moves to `(y, (2x+3y) mod 5)`; lane (0,0) keeps
offset 0. -/
def keccakRho : List Nat :=
  ((List.range 24).foldl
    (fun st t =>
      (listSet st.1 (st.2.1 + 5 * st.2.2) ((t + 1) * (t + 2) / 2 % 64),
        st.2.2, (2 * st.2.1 + 3 * st.2.2) % 5))
    (List.replicate 25 0, 1, 0)).1

/-- Keccak theta step. -/
def keccakTheta (st : List Nat) : List Nat :=
  let col := fun x => x64 (st.getD x 0) (x64 (st.getD (x + 5) 0)
    (x64 (st.getD (x + 10) 0) (x64 (st.getD (x + 15) 0) (st.getD (x + 20) 0))))
  let d := fun x => x64 (col ((x + 4) % 5)) (rotl64 (col ((x + 1) % 5)) 1)
  (List.range 25).map fun i => x64 (st.getD i 0) (d (i % 5))

/-- Keccak rho and pi steps: lane (x,y) rotates by its offset and moves to
position (y, 2x+3y); stated here as the inverse map on the destination
index `j`, whose source lane is `x = (3*(j/5) + j%5) % 5`, `y = j % 5`. -/
def keccakRhoPi (st : List Nat) : List Nat :=
  (List.range 25).map fun j =>
    let i := (3 * (j / 5) + j % 5) % 5 + 5 * (j % 5)
    rotl64 (st.getD i 0) (keccakRho.getD i 0)

/-- Keccak chi step. -/
def keccakChi (st : List Nat) : List Nat :=
  (List.range 25).map fun j =>
    let y5 := 5 * (j / 5)
    x64 (st.getD j 0)
      (Nat.land (not64 (st.getD ((j + 1) % 5 + y5) 0)) (st.getD ((j + 2) % 5 + y5) 0))

/-- One Keccak-f[1600] round. -/
def keccakRound (st : List Nat) (rc : Nat) : List Nat :=
  let c := keccakChi (keccakRhoPi (keccakTheta st))
  x64 (c.getD 0 0) rc :: c.drop 1

/-- The full Keccak-f[1600] permutation. -/
def keccakF (st : List Nat) : List Nat := keccakRC.foldl keccakRound st

/-- Original Keccak multi-rate padding with domain byte 0x01
(the "legacy" scheme used by `sha3.NewLegacyKeccak256`). -/
def keccakPad (msg : List Nat) : List Nat :=
  let q := 136 - msg.length % 136
  if q = 1 then msg ++ [129]
  else msg ++ [1] ++ List.replicate (q - 2) 0 ++ [128]

/-- Absorb one 136-byte block into the state and permute. -/
def keccakAbsorbBlock (st : List Nat) (block : List Nat) : List Nat :=
  keccakF ((List.range 25).map fun i =>
    if i < 17 then x64 (st.getD i 0) (leUint64 block (8 * i)) else st.getD i 0)

/-- Split a byte list into 136-byte blocks. -/
def blocks136 : List Nat → List (List Nat)
  | [] => []
  | c :: rest => (c :: rest).take 136 :: blocks136 (rest.drop 135)
  termination_by l => l.length
  decreasing_by simp [List.length_drop]; omega

/-- Keccak-256 digest (32 bytes) of a byte list
(Go `sha3.NewLegacyKeccak256` write-then-sum). -/
def keccak256 (msg : List Nat) : List Nat :=
  let st := (blocks136 (keccakPad msg)).foldl keccakAbsorbBlock (List.replicate 25 0)
  u64le (st.getD 0 0) ++ u64le (st.getD 1 0) ++ u64le (st.getD 2 0) ++ u64le (st.getD 3 0)

/-! ## CRC-32 (Go `hash/crc32.ChecksumIEEE`) -/

/-- Eight bit-steps of the reflected CRC-32 polynomial 0xEDB88320. -/
def crc32Byte (c : Nat) : Nat → Nat
  | 0 => c
  | n + 1 => crc32Byte (if c % 2 = 1 then Nat.xor (c / 2) 0xedb88320 else c / 2) n

/-- IEEE CRC-32 of a byte list. -/
def crc32 (data : List Nat) : Nat :=
  Nat.xor (data.foldl (fun c b => crc32Byte (Nat.xor c (b % 256)) 8) 0xffffffff) 0xffffffff

/-! ## Register extend engine and event primitives (`internal/mr.go`) -/

/-- The loop of `measureLog`: starting from register `mr`, each entry `e`
replaces `mr` by the SHA-384 of `mr` followed by `e` (the Go code writes
both into one incremental hash, which digests their concatenation). -/
def measureLogAux (mr : List Nat) : List (List Nat) → List Nat
  | [] => mr
  | entry :: rest => measureLogAux (measureSha384 (mr ++ entry)) rest

/-- `measureLog` computes a measurement of the given RTMR event log by
simulating extending the RTMR, starting from the all-zero 48-byte register
(`internal/mr.go`; the `debug`/`rtmrName` parameters of the current revision
only print and are omitted). -/
def measureLog (log : List (List Nat)) : List Nat :=
  measureLogAux (List.replicate 48 0) log

/-- `measureTdxKernelCmdline` measures the kernel cmdline: a NUL byte is
appended and the result re-encoded as UTF-16LE before hashing
(`internal/mr.go`). -/
def measureTdxKernelCmdline (cmdline : String) : List Nat :=
  measureSha384 (utf16leChars (cmdline.data ++ [Char.ofNat 0]))

/-- `measureTdxEfiVariable` measures an EFI variable event: binary vendor
GUID, the variable-name length and a zero data length as little-endian
64-bit values, then the UTF-16LE variable name (`internal/mr.go`). -/
def measureTdxEfiVariable (vendorGUID varName : String) : List Nat :=
  measureSha384 (encodeGUID vendorGUID ++ u64le varName.utf8ByteSize ++ u64le 0 ++
    utf16leChars varName.data)

/-! ## Disk/GPT synthesizer (`calculateUEFIDiskGUIDHash`) -/

/-- The 92-byte GPT header with the given header and partition-array CRC
fields; all other fields are the fixed constants of the source
(1 GiB disk, 2097152 sectors). -/
def gptHeaderBytes (headerCRC partitionCRC : Nat) : List Nat :=
  utf8Bytes "EFI PART" ++ u32le 0x00010000 ++ u32le 92 ++ u32le headerCRC ++
    u32le 0 ++ u64le 1 ++ u64le 2097151 ++ u64le 34 ++ u64le 2097118 ++
    encodeGUID "12345678-1234-5678-1234-567812345678" ++ u64le 2 ++ u32le 128 ++
    u32le 128 ++ u32le partitionCRC

/-- The single 128-byte ESP partition entry: EFI-System-Partition type GUID,
fixed unique GUID, LBA 2048..1026047, attribute bit 0, name "ESP" in
UTF-16LE padded to 72 bytes. -/
def gptPartitionBytes : List Nat :=
  encodeGUID "C12A7328-F81F-11D2-BA4B-00A0C93EC93B" ++
    encodeGUID "87654321-4321-8765-4321-876543218765" ++
    u64le 2048 ++ u64le 1026047 ++ u64le 1 ++
    (utf16leChars "ESP".data ++ List.replicate 66 0)

/-- Generates the deterministic UEFI disk GUID hash for TDX measurements:
CRCs are computed over the 128-entry zero-filled partition array and the
92-byte header, and the measured structure is header, one little-endian
partition count, and the partition entry (`uefi_disk_guid.go`, given here
as the unnamed source file building the GPT structures). -/
def calculateUEFIDiskGUIDHash : List Nat :=
  let partCRC := crc32 (gptPartitionBytes ++ List.replicate 16256 0)
  let hdrCRC := crc32 (gptHeaderBytes 0 partCRC)
  measureSha384 (gptHeaderBytes hdrCRC partCRC ++ u64le 1 ++ gptPartitionBytes)

/-! ## TDVF metadata (`tdvfSection`, `parseTdvfMetadata` in `internal/mr.go`) -/

/-- A TDVF metadata section record (32 bytes on the wire). -/
structure TdvfSection where
  dataOffset : Nat
  rawDataSize : Nat
  memoryAddress : Nat
  memoryDataSize : Nat
  secType : Nat
  attributes : Nat
deriving DecidableEq

/-- Parsed TDVF metadata: the ordered section list. -/
structure TdvfMetadata where
  sections : List TdvfSection
deriving DecidableEq

/-- 64-bit wrapping subtraction (Go `uint64` subtraction `a - b`). -/
def sub64 (a b : Nat) : Nat := (a + (M64 - b % M64)) % M64

/-- TD HOB base address: the memory address of the first metadata section of
type `tdvfSectionTdHob` (2), else the fixed default 0x809000
(`measureTdxQemuTdHob` in `internal/mr.go`). -/
def tdHobBaseAddr (meta : Option TdvfMetadata) : Nat :=
  match meta with
  | some m =>
    match m.sections.find? (fun s => s.secType == 2) with
    | some s => s.memoryAddress
    | none => 0x809000
  | none => 0x809000

/-- The fixed 56-byte EFI_HOB_TYPE_HANDOFF header (type 1, length 56,
version 9, all topology fields zero; the end-of-list field at bytes 48..56
is patched later). -/
def hobHandoffHeader : List Nat :=
  [1, 0, 56, 0, 0, 0, 0, 0, 9, 0, 0, 0] ++ List.replicate 44 0

/-- One 48-byte EFI_HOB_TYPE_RESOURCE_DESCRIPTOR record: type 3, length 48,
zero owner GUID, the given resource type, attribute 7, and little-endian
start and length. -/
def resourceHob (resourceType start length : Nat) : List Nat :=
  [3, 0, 48, 0, 0, 0, 0, 0] ++ List.replicate 16 0 ++
    [resourceType, 0, 0, 0, 7, 0, 0, 0] ++ u64le start ++ u64le length

/-- The seven fixed low-memory resource records of the TD HOB. -/
def fixedLowMemHobs : List Nat :=
  resourceHob 7 0 0x800000 ++ resourceHob 0 0x800000 0x6000 ++
    resourceHob 7 0x806000 0x3000 ++ resourceHob 0 0x809000 0x2000 ++
    resourceHob 0 0x80B000 0x2000 ++ resourceHob 7 0x80D000 0x4000 ++
    resourceHob 0 0x811000 0xf000

/-- The TD HOB blob built by `measureTdxQemuTdHob` (`internal/mr.go`): the
hand-off header, the seven fixed records, one or two records for the rest of
guest memory split at 0xB0000000, and the end-of-list pointer patched into
header bytes 48..56.  `remainingMemory -= length` is Go `uint64` wrapping
subtraction, threaded here exactly as the source's closure does. -/
def buildTdHob (memorySize : Nat) (meta : Option TdvfMetadata) : List Nat :=
  let rem1 := sub64 memorySize 0x800000
  let rem2 := sub64 rem1 0x6000
  let rem3 := sub64 rem2 0x3000
  let rem4 := sub64 rem3 0x2000
  let rem5 := sub64 rem4 0x2000
  let rem6 := sub64 rem5 0x4000
  let rem7 := sub64 rem6 0xf000
  let body := hobHandoffHeader ++ fixedLowMemHobs
  let tdHob :=
    if 0xB0000000 ≤ memorySize then
      body ++ resourceHob 7 0x820000 0x7F7E0000 ++
        resourceHob 7 0x100000000 (sub64 rem7 0x7F7E0000)
    else
      body ++ resourceHob 7 0x820000 rem7
  listOverwrite tdHob 48 (u64le ((tdHobBaseAddr meta + tdHob.length + 8) % M64))

/-- `measureTdxQemuTdHob` measures the TD HOB: the SHA-384 of the blob. -/
def measureTdxQemuTdHob (memorySize : Nat) (meta : Option TdvfMetadata) : List Nat :=
  measureSha384 (buildTdHob memorySize meta)

/-- The end-of-list patch step stated by the spec: overwrite bytes 48..56 of
the finished blob with the little-endian value
`hobBaseAddress + len(totalBlob) + 8` (a Go `uint64` sum). -/
def hobEndPatch (blob : List Nat) (base : Nat) : List Nat :=
  listOverwrite blob 48 (u64le ((base + blob.length + 8) % M64))

/-- The OVMF table footer GUID (`parseTdvfMetadata`). -/
def tableFooterGUID : String := "96b582de-1fb2-45f7-baea-a366c55a082d"

/-- The GUID whose table entry holds the TDX metadata offset. -/
def tdxMetadataOffsetGUID : String := "e47a6535-984a-4798-865e-4685a7bf8ec2"

/-- The backward walk over the reverse-linked OVMF GUID table looking for the
TDX-metadata-offset entry (`parseTdvfMetadata`'s `for` loop).  `fuel` bounds
the iteration count: the Go loop does not terminate when a non-matching
entry has length 0, a case no caller reaches; with `fuel = offset + 1` the
model is exact whenever every visited entry length is positive. -/
def findTdxEntry (tables : List Nat) (offset : Nat) : Nat → Except String (List Nat)
  | 0 => .error "nontermination: zero-length OVMF table entry"
  | fuel + 1 =>
    if offset < 18 then .error "missing TDVF metadata in firmware"
    else
      let guid := listSlice tables (offset - 16) 16
      let entryLen := leUint16 tables (offset - 18)
      if offset < 18 + entryLen then .error "malformed OVMF table in firmware"
      else if guid = encodeGUID tdxMetadataOffsetGUID then
        .ok (listSlice tables (offset - 18 - entryLen) entryLen)
      else findTdxEntry tables (offset - entryLen) fuel

/-- Parse and sanity-check `count` 32-byte TDVF section records starting at
byte `pos` of the firmware (`parseTdvfMetadata`'s section loop; reading past
the end of the firmware is a Go slice panic, modelled as an error). -/
def parseTdvfSections (fw : List Nat) (pos : Nat) : Nat → Except String (List TdvfSection)
  | 0 => .ok []
  | n + 1 =>
    if fw.length < pos + 32 then .error "panic: TDVF section out of range"
    else
      let secData := listSlice fw pos 32
      let s : TdvfSection :=
        ⟨leUint32 secData 0, leUint32 secData 4, leUint64 secData 8,
         leUint64 secData 16, leUint32 secData 24, leUint32 secData 28⟩
      if s.memoryAddress % 4096 ≠ 0 then
        .error "TDVF metadata section has non-aligned memory address"
      else if s.memoryDataSize < s.rawDataSize then
        .error "TDVF metadata section memory data size is less than raw data size"
      else if s.memoryDataSize % 4096 ≠ 0 then
        .error "TDVF metadata section has non-aligned memory data size"
      else if s.attributes &&& 1 ≠ 0 ∧ s.rawDataSize < s.memoryDataSize then
        .error "TDVF metadata section raw data size is less than memory data size"
      else (parseTdvfSections fw (pos + 32) n).map (s :: ·)

/-- `parseTdvfMetadata` parses the TDVF metadata from the firmware blob
(`internal/mr.go`): footer GUID and table length checks, the GUID-table
walk, the "TDVF" descriptor with version 1, and the checked section records.
Go slice panics on short input are modelled as errors. -/
def parseTdvfMetadata (fw : List Nat) : Except String TdvfMetadata :=
  if fw.length < 50 then .error "panic: firmware too short"
  else
    let offset := fw.length - 32
    let guid := listSlice fw (offset - 16) 16
    let tablesLen := leUint16 fw (offset - 18)
    if guid ≠ encodeGUID tableFooterGUID then .error "malformed OVMF table footer"
    else if tablesLen = 0 ∨ offset - 18 < tablesLen then .error "malformed OVMF table footer"
    else
      let tables := listSlice fw (offset - 18 - tablesLen) tablesLen
      match findTdxEntry tables tables.length (tables.length + 1) with
      | .error e => .error e
      | .ok data =>
        if data.length < 4 then .error "panic: metadata entry too short"
        else
          let rawOff := leUint32 data (data.length - 4)
          if fw.length < rawOff then .error "panic: TDVF metadata offset out of range"
          else
            let tdvfMetaOffset := fw.length - rawOff
            if fw.length < tdvfMetaOffset + 16 then .error "panic: TDVF descriptor out of range"
            else
              let tdvfMetaDesc := listSlice fw tdvfMetaOffset 16
              if listSlice tdvfMetaDesc 0 4 ≠ utf8Bytes "TDVF" then
                .error "malformed TDVF metadata descriptor in firmware"
              else if leUint32 tdvfMetaDesc 8 ≠ 1 then
                .error "unsupported TDVF metadata descriptor version in firmware"
              else
                (parseTdvfSections fw (tdvfMetaOffset + 16) (leUint32 tdvfMetaDesc 12)).map
                  TdvfMetadata.mk

/-! ## MRTD computer (`computeMrtd` in `internal/mr.go`)

The Go method streams 128-byte TDCALL frames (plus raw 256-byte chunks for
MR-extended pages) into one running SHA-384.  The embedding first collects
the streamed bytes and then hashes them, which is the same digest. -/

/-- The `memPageAdd` frame for one page: nothing when the page-augment
attribute (bit 1) is set, otherwise a 128-byte frame with the ASCII tag
"MEM.PAGE.ADD" and the little-endian guest physical address at offset 16. -/
def memPageAddFrame (s : TdvfSection) (page : Nat) : List Nat :=
  if s.attributes &&& 2 = 0 then
    [77, 69, 77, 46, 80, 65, 71, 69, 46, 65, 68, 68, 0, 0, 0, 0] ++
      u64le ((s.memoryAddress + page * 4096) % M64) ++ List.replicate 104 0
  else []

/-- One `mrExtend` chunk frame: a 128-byte frame with the ASCII tag
"MR.EXTEND" and the little-endian chunk address at offset 16, followed by
the 256 raw firmware bytes of the chunk.  The Go chunk read
`fw[chunkOffset : chunkOffset+256]` panics past the end of the firmware;
the total model reads the available bytes. -/
def mrExtendChunk (fw : List Nat) (s : TdvfSection) (page i : Nat) : List Nat :=
  [77, 82, 46, 69, 88, 84, 69, 78, 68, 0, 0, 0, 0, 0, 0, 0] ++
    u64le ((s.memoryAddress + page * 4096 + i * 256) % M64) ++ List.replicate 104 0 ++
    listSlice fw (s.dataOffset + page * 4096 + i * 256) 256

/-- The `mrExtend` bytes for one page: the 16 chunk frames when the
MR-extend attribute (bit 0) is set, nothing otherwise. -/
def mrExtendStream (fw : List Nat) (s : TdvfSection) (page : Nat) : List Nat :=
  if s.attributes &&& 1 ≠ 0 then
    ((List.range 16).map fun i => mrExtendChunk fw s page i).flatten
  else []

/-- The bytes streamed for one section under the given MRTD variant:
variant 0 (two-pass) emits all pages' ADD frames and then all pages'
EXTEND frames; variant 1 (single-pass) interleaves them per page. -/
def sectionStream (fw : List Nat) (s : TdvfSection) (variant : Nat) : List Nat :=
  let numPages := s.memoryDataSize / 4096
  if variant = 0 then
    ((List.range numPages).map fun p => memPageAddFrame s p).flatten ++
      ((List.range numPages).map fun p => mrExtendStream fw s p).flatten
  else
    ((List.range numPages).map fun p => memPageAddFrame s p ++ mrExtendStream fw s p).flatten

/-- The full byte stream hashed by `computeMrtd` for the given variant
(both variants stream section by section in parsed order). -/
def mrtdEventStream (fw : List Nat) (sections : List TdvfSection) (variant : Nat) : List Nat :=
  (sections.map fun s => sectionStream fw s variant).flatten

/-- The per-section loop of `computeMrtd`: an unrecognized variant hits the
Go `panic("unknown MRTD variant")` inside the loop body, modelled as `none`
(so a metadata with no sections never reaches the check, as in Go). -/
def mrtdStreamChecked (fw : List Nat) (variant : Nat) :
    List TdvfSection → Option (List Nat)
  | [] => some []
  | s :: rest =>
    if variant = 0 ∨ variant = 1 then
      (mrtdStreamChecked fw variant rest).map (sectionStream fw s variant ++ ·)
    else none

/-- `computeMrtd` simulates the TD page-add / MR-extend sequence over the
firmware sections and returns the running SHA-384 (`internal/mr.go`);
`none` models the panic on an unknown variant. -/
def computeMrtd (fw : List Nat) (m : TdvfMetadata) (variant : Nat) : Option (List Nat) :=
  (mrtdStreamChecked fw variant m.sections).map sha384

/-! ## GUID-table firmware metadata parser (`ParseGuidMap`,
`GetTdxMetadataSections`, `GetConfigurationFirmwareVolume`,
`GetExpectedCfvSha384` — the second parser in `internal/mr.go`)

`FwGuidEntry` holds a 16-bit size and an `EfiGuid`; the Go map is keyed by
the GUID's canonical string form.  The formatting of an `EfiGuid` read
little-endian from 16 wire bytes equals the canonical lowercase string
exactly when the wire bytes equal `encodeGUID` of that string, so the model
keys the map by the raw 16 wire bytes. -/

/-- Read the trailing `FwGuidEntry` (2-byte size then 16-byte GUID) of a
buffer (`getLastGuidTableEntry`). -/
def getLastGuidTableEntry (fw : List Nat) : Except String (Nat × List Nat) :=
  if fw.length < 18 then
    .error "firmware file: too few bytes to find footer entry"
  else .ok (leUint16 fw (fw.length - 18), listSlice fw (fw.length - 16) 16)

/-- Locate the GUID table: drop the 32 trailing bytes, read the footer entry,
and return the `entry.Size`-byte table minus the footer entry itself
(`parseGuidTable`).  A footer size below 18 makes the Go slice expression
panic; modelled as an error. -/
def parseGuidTable (fw : List Nat) : Except String (List Nat) :=
  if fw.length < 32 then .error "firmware file: too few bytes to find footer"
  else
    let fwT := fw.take (fw.length - 32)
    match getLastGuidTableEntry fwT with
    | .error e => .error e
    | .ok (size, _) =>
      if fwT.length < size then .error "firmware file: Guid table larger than firmware"
      else if size < 18 then .error "panic: guid table slice bounds"
      else .ok (listSlice fwT (fwT.length - size) (size - 18))

/-- The walk of `ParseGuidMap`: repeatedly strip the trailing entry of the
GUID table, mapping its GUID to its payload bytes.  Entries processed later
(nearer the table start) are consed on, so first-match lookup reproduces the
Go map's overwrite semantics.  Each step consumes at least 18 bytes, so the
fuel `guidTable.length + 1` provided by `ParseGuidMap` never runs out; the
recursion is on fuel so that the model reduces definitionally. -/
def parseGuidMapAux (gt : List Nat) (acc : List (List Nat × List Nat)) :
    Nat → Except String (List (List Nat × List Nat))
  | 0 => .error "fuel exhausted"
  | fuel + 1 =>
    match gt with
    | [] => .ok acc
    | _ :: _ =>
      if gt.length < 18 then
        .error "firmware file: too few bytes to find footer entry"
      else
        let size := leUint16 gt (gt.length - 18)
        if gt.length < size then
          .error "firmware file: table entry larger than guid table"
        else if size < 18 then .error "panic: guid table entry slice bounds"
        else
          parseGuidMapAux (gt.take (gt.length - size))
            ((listSlice gt (gt.length - 16) 16,
              listSlice gt (gt.length - size) (size - 18)) :: acc) fuel

/-- `ParseGuidMap` builds the GUID-to-payload mapping of the firmware's
trailing reverse-linked table. -/
def ParseGuidMap (fw : List Nat) : Except String (List (List Nat × List Nat)) :=
  match parseGuidTable fw with
  | .error e => .error e
  | .ok guidTable => parseGuidMapAux guidTable [] (guidTable.length + 1)

/-- `getTdxMetadataOffset` reads the 4-byte little-endian offset stored under
the TDX-metadata-offset GUID.  A missing key gives a nil Go slice and the
`[:4]` re-slice panics; a shorter payload would read past its length through
the slice's capacity - both are modelled as an error. -/
def getTdxMetadataOffset (fw : List Nat) : Except String Nat :=
  match ParseGuidMap fw with
  | .error e => .error e
  | .ok guidmap =>
    match guidmap.lookup (encodeGUID tdxMetadataOffsetGUID) with
    | none => .error "panic: missing TDX metadata offset entry"
    | some v =>
      if v.length < 4 then .error "panic: TDX metadata offset entry too short"
      else .ok (leUint32 v 0)

/-- A TDVF metadata section as parsed by the second parser
(`TdxMetadataSection`; field `Type` is `typ` here). -/
structure TdxMetadataSection where
  imageOffset : Nat
  rawDataSize : Nat
  memoryAddress : Nat
  memorySize : Nat
  typ : Nat
  attributes : Nat
deriving DecidableEq

/-- Read `count` consecutive 32-byte section records starting at `pos`
(the `binary.Read` loop of `GetTdxMetadataSections`; running out of bytes is
an `io` error). -/
def readMetaSections (b : List Nat) (pos : Nat) : Nat → Except String (List TdxMetadataSection)
  | 0 => .ok []
  | n + 1 =>
    if b.length < pos + 32 then
      .error "TDX Firmware Metadata: failed to read data into struct"
    else
      let d := listSlice b pos 32
      (readMetaSections b (pos + 32) n).map
        (⟨leUint32 d 0, leUint32 d 4, leUint64 d 8, leUint64 d 16,
          leUint32 d 24, leUint32 d 28⟩ :: ·)

/-- `GetTdxMetadataSections` reads the TDVF descriptor at the offset from the
GUID table (counted from the end of the firmware) and its section records;
this parser checks no signature or version. -/
def GetTdxMetadataSections (fw : List Nat) : Except String (List TdxMetadataSection) :=
  match getTdxMetadataOffset fw with
  | .error e => .error e
  | .ok offset =>
    if fw.length < offset then
      .error "TDX Firmware Metadata: Metadata offset too large for firmware"
    else
      let b := fw.drop (fw.length - offset)
      if b.length < 16 then
        .error "TDX Firmware Metadata: failed to read data into struct"
      else readMetaSections b 16 (leUint32 b 12)

/-- `GetConfigurationFirmwareVolume` returns the CFV bytes: the range of the
first section of type 1, or of the zero-valued section when none exists
(the Go loop leaves `cfvSection` zero).  The `uint32` sum
`ImageOffset + RawDataSize` wraps; a limit beyond the firmware makes the
final Go slice panic, modelled as an error. -/
def GetConfigurationFirmwareVolume (fw : List Nat) : Except String (List Nat) :=
  match GetTdxMetadataSections fw with
  | .error e => .error e
  | .ok sections =>
    let cfvSection := (sections.find? fun s => s.typ == 1).getD ⟨0, 0, 0, 0, 0, 0⟩
    let base := cfvSection.imageOffset
    let limit := (cfvSection.imageOffset + cfvSection.rawDataSize) % 4294967296
    if fw.length < base then
      .error "TDX Firmware Metadata: CFV Section offset too large"
    else if limit < base then
      .error "TDX Firmware Metadata: Invalid CFV Section Size too large"
    else if fw.length < limit then .error "panic: CFV slice bounds"
    else .ok (listSlice fw base (limit - base))

/-- `GetExpectedCfvSha384` hashes the configuration firmware volume. -/
def GetExpectedCfvSha384 (fw : List Nat) : Except String (List Nat) :=
  match GetConfigurationFirmwareVolume fw with
  | .error e => .error e
  | .ok cfv => .ok (sha384 cfv)

/-! ## Orchestrator (`MeasureTdxQemu` in `internal/mr.go`, current revision) -/

/-- All the measurement values for TDX (`TdxMeasurements`).  The current
source leaves `MRTD` unset (its computation is commented out), modelled as
the empty list. -/
structure TdxMeasurements where
  MRTD : List Nat
  RTMR0 : List Nat
  RTMR1 : List Nat
  RTMR2 : List Nat
deriving DecidableEq

/-- The configuration-specific event digests looked up per machine shape. -/
structure MachineConfigEvents where
  tdHobHash : List Nat
  acpiLoaderHash : List Nat
  acpiRsdpHash : List Nat
  acpiTablesHash : List Nat
deriving DecidableEq

/-- Modelled from the spec: the static machine-configuration table
(`machineConfigurations`) is defined in a source file absent from `src/`;
per the spec it is a static mapping from known cloud machine shapes
(`c3-standard-4`, `c3-standard-8` appear in the sources' fixed-measurement
tables) to configuration-specific digests.  The concrete digest values are
not recorded under `src/` and no claim depends on them, so fixed
placeholder digests stand in for them. -/
def machineConfigurations : List (String × MachineConfigEvents) :=
  [("c3-standard-4",
    ⟨List.replicate 48 161, List.replicate 48 162, List.replicate 48 163,
     List.replicate 48 164⟩),
   ("c3-standard-8",
    ⟨List.replicate 48 177, List.replicate 48 178, List.replicate 48 179,
     List.replicate 48 180⟩)]

/-- The measured SecureBoot variable event.  The module-level constant is
defined in a file absent from `src/`; the prior revision of
`MeasureTdxQemu` in `src/internal/mr.go` computes this entry inline as
shown here. -/
def secureBootHash : List Nat :=
  measureTdxEfiVariable "8BE4DF61-93CA-11D2-AA0D-00E098032B8C" "SecureBoot"

/-- The measured PK variable event (see `secureBootHash`). -/
def pkHash : List Nat :=
  measureTdxEfiVariable "8BE4DF61-93CA-11D2-AA0D-00E098032B8C" "PK"

/-- The measured KEK variable event (see `secureBootHash`). -/
def kekHash : List Nat :=
  measureTdxEfiVariable "8BE4DF61-93CA-11D2-AA0D-00E098032B8C" "KEK"

/-- The measured db variable event (see `secureBootHash`). -/
def dbHash : List Nat :=
  measureTdxEfiVariable "D719B2CB-3D3A-4596-A3BC-DAD00E67656F" "db"

/-- The measured dbx variable event (see `secureBootHash`). -/
def dbxHash : List Nat :=
  measureTdxEfiVariable "D719B2CB-3D3A-4596-A3BC-DAD00E67656F" "dbx"

/-- The Boot0000 option digest: the hex constant of the prior revision in
`src/internal/mr.go` (`boot000Hash` there). -/
def boot0000Hash : List Nat :=
  hexDecodeChars "23ada07f5261f12f34a0bd8e46760962d6b4d576a416f1fea1c64bc656b1d28eacf7047ae6e967c58fd2a98bfa74c298".data

/-- Modelled from the spec: the Boot0001 option digest is a module-level
constant absent from `src/`; its value is irrelevant to every claim. -/
def boot0001Hash : List Nat := List.replicate 48 1

/-- Modelled from the spec: the Boot0002 option digest is a module-level
constant absent from `src/`; its value is irrelevant to every claim. -/
def boot0002Hash : List Nat := List.replicate 48 2

/-- `MeasureTdxQemu` (current revision, taking a machine `configuration`):
configuration lookup, CFV hash, the fixed RTMR0/RTMR1/RTMR2 event logs, and
the extend of each log.  The Authenticode digester and the UKI `.linux`
section extractor are external collaborators (`authenticode.Parse` +
`Hash(crypto.SHA384)` and `extractKernel`), passed as function parameters;
`extractKernel` panics in Go on failure, modelled as an error result.
The `debug` parameter only prints and is omitted; the MRTD computation is
commented out in the source, leaving `MRTD` empty. -/
def MeasureTdxQemu (authenticodeDigest : List Nat → Except String (List Nat))
    (extractKernelLinux : List Nat → Except String (List Nat))
    (fwData kernelData initrdData : List Nat) (memorySize cpuCount : Nat)
    (kernelCmdline configuration : String) : Except String TdxMeasurements :=
  match machineConfigurations.lookup configuration with
  | none => .error ("unknown machine configuration: " ++ configuration)
  | some configEvents =>
    match GetExpectedCfvSha384 fwData with
    | .error e => .error ("failed to compute CFV hash: " ++ e)
    | .ok cfvImageHash =>
      let rtmr0Log : List (List Nat) :=
        [configEvents.tdHobHash, cfvImageHash, secureBootHash, pkHash, kekHash,
         dbHash, dbxHash, measureSha384 [0, 0, 0, 0], configEvents.acpiLoaderHash,
         configEvents.acpiRsdpHash, configEvents.acpiTablesHash,
         measureSha384 [1, 0, 2, 0, 0, 0], boot0001Hash, boot0002Hash, boot0000Hash]
      match authenticodeDigest kernelData with
      | .error e => .error e
      | .ok ukiAuthHash =>
        match extractKernelLinux kernelData with
        | .error e => .error e
        | .ok kernelPEData =>
          match authenticodeDigest kernelPEData with
          | .error e => .error e
          | .ok kernelAuthHash =>
            let rtmr1Log : List (List Nat) :=
              [measureSha384 (utf8Bytes "Calling EFI Application from Boot Option"),
               measureSha384 [0, 0, 0, 0], calculateUEFIDiskGUIDHash, ukiAuthHash,
               kernelAuthHash, measureSha384 (utf8Bytes "Exit Boot Services Invocation"),
               measureSha384 (utf8Bytes "Exit Boot Services Returned with Success")]
            let rtmr2Log : List (List Nat) :=
              [measureTdxKernelCmdline kernelCmdline, measureSha384 initrdData]
            .ok ⟨[], measureLog rtmr0Log, measureLog rtmr1Log, measureLog rtmr2Log⟩

/-! ## Workload identifier (`generateWorkloadID` in the batch front-end) -/

/-- The 112-byte zero buffer whose comment documents it as the reserved
RTMR3 (48) + MRCONFIGID (48) + TdAttributes (8) + xFAM (8) fields. -/
def workloadFooter : List Nat := List.replicate 112 0

/-- `generateWorkloadID(mrtd, rtmr0, rtmr1, rtmr2)`: the Go code writes the
four registers into a legacy Keccak-256 and returns `hash.Sum(workloadFooter)`.
Go's `hash.Sum(b)` APPENDS the digest to `b`; the footer is therefore a
prefix of the returned value and is never hashed. -/
def generateWorkloadID (mrtd rtmr0 rtmr1 rtmr2 : List Nat) : List Nat :=
  workloadFooter ++ keccak256 (mrtd ++ rtmr0 ++ rtmr1 ++ rtmr2)

/-! ## Concrete fixtures

Small hand-built firmware images used to instantiate the theorems below on
concrete inputs. -/

/-- A 120-byte firmware accepted by `parseTdvfMetadata`: a valid OVMF footer
and GUID table whose single entry points at a version-1 "TDVF" descriptor
with one section that has the MR-extend attribute set and zero sizes. -/
def fw120 : List Nat :=
  (utf8Bytes "TDVF" ++ u32le 48 ++ u32le 1 ++ u32le 1) ++
    (u32le 0 ++ u32le 0 ++ u64le 0 ++ u64le 0 ++ u32le 0 ++ u32le 1) ++
    u32le 120 ++ u16le 4 ++ encodeGUID tdxMetadataOffsetGUID ++
    u16le 22 ++ encodeGUID tableFooterGUID ++ List.replicate 32 0

/-- The single metadata section of `fw120`: zero offsets and sizes, type 0,
MR-extend attribute set. -/
def fw120Section : TdvfSection := ⟨0, 0, 0, 0, 0, 1⟩

/-- An 88-byte firmware accepted by the GUID-map parser
(`GetTdxMetadataSections`): a footer entry of size 40 wrapping one table
entry for the TDX-metadata-offset GUID, pointing at a descriptor with zero
sections. -/
def fwB : List Nat :=
  (utf8Bytes "TDVF" ++ u32le 16 ++ u32le 1 ++ u32le 0) ++
    (u32le 88 ++ u16le 22 ++ encodeGUID tdxMetadataOffsetGUID) ++
    (u16le 40 ++ encodeGUID tableFooterGUID) ++ List.replicate 32 0

/-- A metadata section with the MR-extend attribute set, the page-augment
attribute clear, and two 4-KiB pages (`rawDataSize = memorySize = 8192`),
satisfying every `parseTdvfMetadata` section check. -/
def mrSec2 : TdvfSection := ⟨0, 8192, 0, 8192, 0, 1⟩

/-- A stub Authenticode collaborator returning a fixed 48-byte digest. -/
def authStub : List Nat → Except String (List Nat) :=
  fun _ => .ok (List.replicate 48 7)

/-- A stub UKI `.linux` section extractor returning a fixed payload. -/
def extractStub : List Nat → Except String (List Nat) := fun _ => .ok [1, 2, 3]

/-! ## Helper lemmas -/

/-- A SHA-384 digest is 48 bytes long. -/
theorem sha384_length (m : List Nat) : (sha384 m).length = 48 := by
  simp [sha384, u64be]

/-- A Keccak-256 digest is 32 bytes long. -/
theorem keccak256_length (m : List Nat) : (keccak256 m).length = 32 := by
  simp [keccak256, u64le]

/-- Two chained 64-bit wrapping subtractions by small constants collapse to
one. -/
theorem sub64_sub64 (a b c d : Nat) (hb : b < M64) (hc : c < M64) (hd : b + c = d)
    (hdm : d ≤ M64) : sub64 (sub64 a b) c = sub64 a d := by
  unfold sub64
  rw [Nat.mod_eq_of_lt hb, Nat.mod_eq_of_lt hc, Nat.mod_add_mod]
  rcases Nat.lt_or_ge d M64 with h | h
  · rw [Nat.mod_eq_of_lt h]
    have he : a + (M64 - b) + (M64 - c) = a + (M64 - d) + M64 := by omega
    rw [he, Nat.add_mod_right]
  · have hd' : d = M64 := le_antisymm hdm h
    have h0 : d % M64 = 0 := by rw [hd']; exact Nat.mod_self M64
    rw [h0]
    have he : a + (M64 - b) + (M64 - c) = a + (M64 - 0) := by omega
    rw [he]

/-- The seven fixed low-memory record subtractions leave
`memorySize - 0x820000 (mod 2^64)` of remaining memory. -/
theorem sub64_chain7 (a : Nat) :
    sub64 (sub64 (sub64 (sub64 (sub64 (sub64 (sub64 a 0x800000) 0x6000) 0x3000)
      0x2000) 0x2000) 0x4000) 0xf000 = sub64 a 0x820000 := by
  rw [sub64_sub64 a 0x800000 0x6000 0x806000 (by norm_num [M64]) (by norm_num [M64])
      (by norm_num) (by norm_num [M64]),
    sub64_sub64 a 0x806000 0x3000 0x809000 (by norm_num [M64]) (by norm_num [M64])
      (by norm_num) (by norm_num [M64]),
    sub64_sub64 a 0x809000 0x2000 0x80B000 (by norm_num [M64]) (by norm_num [M64])
      (by norm_num) (by norm_num [M64]),
    sub64_sub64 a 0x80B000 0x2000 0x80D000 (by norm_num [M64]) (by norm_num [M64])
      (by norm_num) (by norm_num [M64]),
    sub64_sub64 a 0x80D000 0x4000 0x811000 (by norm_num [M64]) (by norm_num [M64])
      (by norm_num) (by norm_num [M64]),
    sub64_sub64 a 0x811000 0xf000 0x820000 (by norm_num [M64]) (by norm_num [M64])
      (by norm_num) (by norm_num [M64])]

/-- The `measureLog` loop is a left fold of the extend step. -/
theorem measureLogAux_foldl (l : List (List Nat)) :
    ∀ mr, measureLogAux mr l =
      l.foldl (fun m e => measureSha384 (m ++ e)) mr := by
  induction l with
  | nil => intro mr; rfl
  | cons e rest ih => intro mr; simp only [measureLogAux, List.foldl_cons, ih]

/-! ## Claim theorems -/

/-- C1: the register extend engine is exactly the left fold of the event log
through SHA-384 from the all-zero 48-byte seed, and in particular the empty
log yields the all-zero register. -/
theorem c1_measureLog_extend_fold :
    (∀ log : List (List Nat), measureLog log =
      log.foldl (fun mr e => measureSha384 (mr ++ e)) (List.replicate 48 0)) ∧
    measureLog [] = List.replicate 48 0 :=
  ⟨fun log => measureLogAux_foldl log (List.replicate 48 0), rfl⟩

/-- C2: for every input whose configuration lookup, CFV hashing and
collaborator calls succeed, the orchestrator's RTMR0 is the extend of
exactly the 15-entry ordered log
[hobHash, cfvHash, secureBootVarHash, pkHash, kekHash, dbHash, dbxHash,
zeroSeparator, acpiLoaderHash, acpiRsdpHash, acpiTablesHash,
bootOrderDigest, boot0001Hash, boot0002Hash, boot0000Hash], with the zero
separator the SHA-384 of four zero bytes. -/
theorem c2_rtmr0_log (authenticodeDigest extractKernelLinux : List Nat → Except String (List Nat))
    (fwData kernelData initrdData : List Nat) (memorySize cpuCount : Nat)
    (kernelCmdline configuration : String) (configEvents : MachineConfigEvents)
    (cfvImageHash ukiAuthHash kernelPEData kernelAuthHash : List Nat)
    (hcfg : machineConfigurations.lookup configuration = some configEvents)
    (hcfv : GetExpectedCfvSha384 fwData = .ok cfvImageHash)
    (huki : authenticodeDigest kernelData = .ok ukiAuthHash)
    (hext : extractKernelLinux kernelData = .ok kernelPEData)
    (hker : authenticodeDigest kernelPEData = .ok kernelAuthHash) :
    ∃ m : TdxMeasurements,
      MeasureTdxQemu authenticodeDigest extractKernelLinux fwData kernelData
        initrdData memorySize cpuCount kernelCmdline configuration = .ok m ∧
      m.RTMR0 = measureLog
        [configEvents.tdHobHash, cfvImageHash, secureBootHash, pkHash, kekHash,
         dbHash, dbxHash, measureSha384 [0, 0, 0, 0], configEvents.acpiLoaderHash,
         configEvents.acpiRsdpHash, configEvents.acpiTablesHash,
         measureSha384 [1, 0, 2, 0, 0, 0], boot0001Hash, boot0002Hash, boot0000Hash] := by
  simp only [MeasureTdxQemu, hcfg, hcfv, huki, hext, hker]
  exact ⟨_, rfl, rfl⟩

/-- Witness for C2 at a concrete firmware, stub collaborators and the known
configuration name. -/
theorem c2_rtmr0_log_witness :
    ∃ m : TdxMeasurements,
      MeasureTdxQemu authStub extractStub fwB [] [] 0 1 "" "c3-standard-4" = .ok m ∧
      m.RTMR0 = measureLog
        [List.replicate 48 161, sha384 [], secureBootHash, pkHash, kekHash,
         dbHash, dbxHash, measureSha384 [0, 0, 0, 0], List.replicate 48 162,
         List.replicate 48 163, List.replicate 48 164,
         measureSha384 [1, 0, 2, 0, 0, 0], boot0001Hash, boot0002Hash, boot0000Hash] :=
  c2_rtmr0_log authStub extractStub fwB [] [] 0 1 "" "c3-standard-4"
    ⟨List.replicate 48 161, List.replicate 48 162, List.replicate 48 163,
     List.replicate 48 164⟩
    (sha384 []) (List.replicate 48 7) [1, 2, 3] (List.replicate 48 7)
    rfl rfl rfl rfl rfl

/-- C3: for every input whose configuration lookup, CFV hashing and
collaborator calls succeed, the orchestrator's RTMR1 is the extend of
exactly the 7-entry ordered log
[digest of "Calling EFI Application from Boot Option", zeroSeparator,
diskGuidHash, ukiAuthenticodeHash, kernelAuthenticodeHash,
digest of "Exit Boot Services Invocation",
digest of "Exit Boot Services Returned with Success"], where the UKI
Authenticode digest is taken over the whole kernel container image and the
kernel Authenticode digest over its extracted `.linux` section. -/
theorem c3_rtmr1_log (authenticodeDigest extractKernelLinux : List Nat → Except String (List Nat))
    (fwData kernelData initrdData : List Nat) (memorySize cpuCount : Nat)
    (kernelCmdline configuration : String) (configEvents : MachineConfigEvents)
    (cfvImageHash ukiAuthHash kernelPEData kernelAuthHash : List Nat)
    (hcfg : machineConfigurations.lookup configuration = some configEvents)
    (hcfv : GetExpectedCfvSha384 fwData = .ok cfvImageHash)
    (huki : authenticodeDigest kernelData = .ok ukiAuthHash)
    (hext : extractKernelLinux kernelData = .ok kernelPEData)
    (hker : authenticodeDigest kernelPEData = .ok kernelAuthHash) :
    ∃ m : TdxMeasurements,
      MeasureTdxQemu authenticodeDigest extractKernelLinux fwData kernelData
        initrdData memorySize cpuCount kernelCmdline configuration = .ok m ∧
      m.RTMR1 = measureLog
        [measureSha384 (utf8Bytes "Calling EFI Application from Boot Option"),
         measureSha384 [0, 0, 0, 0], calculateUEFIDiskGUIDHash, ukiAuthHash,
         kernelAuthHash, measureSha384 (utf8Bytes "Exit Boot Services Invocation"),
         measureSha384 (utf8Bytes "Exit Boot Services Returned with Success")] := by
  simp only [MeasureTdxQemu, hcfg, hcfv, huki, hext, hker]
  exact ⟨_, rfl, rfl⟩

/-- Witness for C3 at a concrete firmware, stub collaborators and the known
configuration name. -/
theorem c3_rtmr1_log_witness :
    ∃ m : TdxMeasurements,
      MeasureTdxQemu authStub extractStub fwB [] [] 0 1 "" "c3-standard-4" = .ok m ∧
      m.RTMR1 = measureLog
        [measureSha384 (utf8Bytes "Calling EFI Application from Boot Option"),
         measureSha384 [0, 0, 0, 0], calculateUEFIDiskGUIDHash, List.replicate 48 7,
         List.replicate 48 7, measureSha384 (utf8Bytes "Exit Boot Services Invocation"),
         measureSha384 (utf8Bytes "Exit Boot Services Returned with Success")] :=
  c3_rtmr1_log authStub extractStub fwB [] [] 0 1 "" "c3-standard-4"
    ⟨List.replicate 48 161, List.replicate 48 162, List.replicate 48 163,
     List.replicate 48 164⟩
    (sha384 []) (List.replicate 48 7) [1, 2, 3] (List.replicate 48 7)
    rfl rfl rfl rfl rfl

/-- C6: any configuration name absent from the machine-configuration table
makes the orchestrator return the configuration error and no measurement
record, whatever the other inputs - even a malformed firmware and failing
collaborators never get to run, showing the lookup precedes all hashing. -/
theorem c6_unknown_configuration
    (authenticodeDigest extractKernelLinux : List Nat → Except String (List Nat))
    (fwData kernelData initrdData : List Nat) (memorySize cpuCount : Nat)
    (kernelCmdline configuration : String)
    (h : machineConfigurations.lookup configuration = none) :
    MeasureTdxQemu authenticodeDigest extractKernelLinux fwData kernelData
      initrdData memorySize cpuCount kernelCmdline configuration =
      .error ("unknown machine configuration: " ++ configuration) := by
  unfold MeasureTdxQemu
  rw [h]

/-- Witness for C6: the name "bogus-shape" with a garbage firmware and
always-failing collaborators still yields precisely the configuration
error. -/
theorem c6_unknown_configuration_witness :
    MeasureTdxQemu (fun _ => .error "collaborator failure")
      (fun _ => .error "collaborator failure") [222] [222] [222] 0 1 ""
      "bogus-shape" = .error ("unknown machine configuration: " ++ "bogus-shape") :=
  c6_unknown_configuration (fun _ => .error "collaborator failure")
    (fun _ => .error "collaborator failure") [222] [222] [222] 0 1 "" "bogus-shape" rfl

/-- C4: the code bug in the workload identifier.  Because Go's `hash.Sum(b)`
appends the digest to `b`, `generateWorkloadID` returns the 112-byte zero
footer followed by the Keccak-256 of the four registers alone: a 144-byte
value, never equal to any single 32-byte Keccak digest - in particular not
to the claimed digest of the concatenation with the zero padding hashed
(stated for every function with 32-byte output, which the concrete
`keccak256` is by `keccak256_length`). -/
theorem c4_workload_id_sum_appends (mrtd rtmr0 rtmr1 rtmr2 : List Nat) :
    generateWorkloadID mrtd rtmr0 rtmr1 rtmr2 =
      List.replicate 112 0 ++ keccak256 (mrtd ++ rtmr0 ++ rtmr1 ++ rtmr2) ∧
    (generateWorkloadID mrtd rtmr0 rtmr1 rtmr2).length = 144 ∧
    generateWorkloadID mrtd rtmr0 rtmr1 rtmr2 ≠
      keccak256 (mrtd ++ rtmr0 ++ rtmr1 ++ rtmr2 ++ List.replicate 112 0) := by
  refine ⟨rfl, ?_, ?_⟩
  · simp [generateWorkloadID, workloadFooter, keccak256_length]
  · intro h
    have h1 : (generateWorkloadID mrtd rtmr0 rtmr1 rtmr2).length = 144 := by
      simp [generateWorkloadID, workloadFooter, keccak256_length]
    rw [h, keccak256_length] at h1
    exact absurd h1 (by norm_num)

/-- Helper: the small-memory branch of the TD HOB builder, with the chained
wrapping subtractions collapsed to `memorySize - 0x820000 (mod 2^64)`. -/
theorem buildTdHob_eq_small (ms : Nat) (meta : Option TdvfMetadata) (h : ms < 0xB0000000) :
    buildTdHob ms meta = hobEndPatch (hobHandoffHeader ++ fixedLowMemHobs ++
      resourceHob 7 0x820000 (sub64 ms 0x820000)) (tdHobBaseAddr meta) := by
  simp only [buildTdHob]
  rw [if_neg (by omega : ¬ (0xB0000000 ≤ ms)), sub64_chain7]
  simp only [hobEndPatch, listOverwrite, List.append_assoc]

/-- Helper: the large-memory branch of the TD HOB builder. -/
theorem buildTdHob_eq_large (ms : Nat) (meta : Option TdvfMetadata) (h : 0xB0000000 ≤ ms) :
    buildTdHob ms meta = hobEndPatch (hobHandoffHeader ++ fixedLowMemHobs ++
      resourceHob 7 0x820000 0x7F7E0000 ++
      resourceHob 7 0x100000000 (sub64 ms 0x80000000)) (tdHobBaseAddr meta) := by
  simp only [buildTdHob]
  rw [if_pos h, sub64_chain7, sub64_sub64 ms 0x820000 0x7F7E0000 0x80000000
    (by norm_num [M64]) (by norm_num [M64]) (by norm_num) (by norm_num [M64])]
  simp only [hobEndPatch, listOverwrite, List.append_assoc]

set_option maxRecDepth 8192 in
/-- C7: for every memory size the TD HOB blob is the 56-byte hand-off header
and the seven fixed records followed by one record of length
`remainingMemory` below the 0xB0000000 threshold, or two records (up to the
PCI hole and from 4 GiB) at or above it, with bytes 48..56 then overwritten
by the little-endian end-of-list pointer `base + len(blob) + 8`; the blob is
56 + 8*48 bytes in the first case and 56 + 9*48 in the second, and the
measurement is the SHA-384 of the blob. -/
theorem c7_tdhob_structure (memorySize : Nat) (meta : Option TdvfMetadata) :
    (memorySize < 0xB0000000 →
      buildTdHob memorySize meta = hobEndPatch (hobHandoffHeader ++ fixedLowMemHobs ++
        resourceHob 7 0x820000 (sub64 memorySize 0x820000)) (tdHobBaseAddr meta) ∧
      (buildTdHob memorySize meta).length = 56 + 8 * 48) ∧
    (0xB0000000 ≤ memorySize →
      buildTdHob memorySize meta = hobEndPatch (hobHandoffHeader ++ fixedLowMemHobs ++
        resourceHob 7 0x820000 0x7F7E0000 ++
        resourceHob 7 0x100000000 (sub64 memorySize 0x80000000)) (tdHobBaseAddr meta) ∧
      (buildTdHob memorySize meta).length = 56 + 9 * 48) ∧
    measureTdxQemuTdHob memorySize meta = measureSha384 (buildTdHob memorySize meta) := by
  refine ⟨fun h => ⟨buildTdHob_eq_small _ _ h, ?_⟩,
    fun h => ⟨buildTdHob_eq_large _ _ h, ?_⟩, rfl⟩
  · rw [buildTdHob_eq_small _ _ h]; rfl
  · rw [buildTdHob_eq_large _ _ h]; rfl

/-- Witness for C7 at memory sizes on both sides of the threshold. -/
theorem c7_tdhob_structure_witness :
    (buildTdHob 0 none).length = 56 + 8 * 48 ∧
    (buildTdHob 0xC0000000 none).length = 56 + 9 * 48 :=
  ⟨((c7_tdhob_structure 0 none).1 (by decide)).2,
   ((c7_tdhob_structure 0xC0000000 none).2.1 (by decide)).2⟩

/-- C9: when the GUID-map parser succeeds but no metadata section has type 1,
`GetConfigurationFirmwareVolume` does not fail: the zero-valued default
section gives the empty byte range, and `GetExpectedCfvSha384` returns the
SHA-384 of the empty string. -/
theorem c9_cfv_defaults_to_empty (fw : List Nat) (sections : List TdxMetadataSection)
    (h : GetTdxMetadataSections fw = .ok sections)
    (hnone : ∀ s ∈ sections, s.typ ≠ 1) :
    GetConfigurationFirmwareVolume fw = .ok [] ∧
    GetExpectedCfvSha384 fw = .ok (sha384 []) := by
  have hfind : sections.find? (fun s => s.typ == 1) = none := by
    apply List.find?_eq_none.mpr
    intro s hs
    simpa using hnone s hs
  constructor
  · simp [GetConfigurationFirmwareVolume, h, hfind, listSlice]
  · simp [GetExpectedCfvSha384, GetConfigurationFirmwareVolume, h, hfind, listSlice]

/-- Witness for C9 at a concrete firmware whose descriptor declares zero
sections. -/
theorem c9_cfv_defaults_to_empty_witness :
    GetConfigurationFirmwareVolume fwB = .ok [] ∧
    GetExpectedCfvSha384 fwB = .ok (sha384 []) :=
  c9_cfv_defaults_to_empty fwB [] rfl (by simp)

set_option maxRecDepth 8192 in
/-- C10: the HOB synthesizer's remaining-memory accounting is `uint64`
arithmetic modulo 2^64: for any memory size below the 0x820000 bytes
consumed by the seven fixed records, the final record's length field holds
`(memorySize - 0x820000) mod 2^64`, the function does not reject the input,
and the result is a 48-byte digest. -/
theorem c10_remaining_memory_wraps (memorySize : Nat) (meta : Option TdvfMetadata)
    (h : memorySize < 0x820000) :
    listSlice (buildTdHob memorySize meta) 432 8 = u64le (sub64 memorySize 0x820000) ∧
    (buildTdHob memorySize meta).length = 440 ∧
    (measureTdxQemuTdHob memorySize meta).length = 48 := by
  refine ⟨?_, ?_, sha384_length _⟩
  · rw [buildTdHob_eq_small _ _ (by omega)]; rfl
  · rw [buildTdHob_eq_small _ _ (by omega)]; rfl

/-- Witness for C10 at memory size zero. -/
theorem c10_remaining_memory_wraps_witness :
    listSlice (buildTdHob 0 none) 432 8 = u64le (sub64 0 0x820000) ∧
    (buildTdHob 0 none).length = 440 ∧
    (measureTdxQemuTdHob 0 none).length = 48 :=
  c10_remaining_memory_wraps 0 none (by decide)

/-- Every section returned by a successful section parse satisfies the
alignment and size invariants the parser checks. -/
theorem parseTdvfSections_sound (fw : List Nat) :
    ∀ (n pos : Nat) (l : List TdvfSection), parseTdvfSections fw pos n = .ok l →
    ∀ s ∈ l, s.memoryAddress % 4096 = 0 ∧ s.memoryDataSize % 4096 = 0 ∧
      s.rawDataSize ≤ s.memoryDataSize ∧
      (s.attributes &&& 1 ≠ 0 → s.memoryDataSize ≤ s.rawDataSize)
  | 0, pos, l => by
    intro h s hs
    simp only [parseTdvfSections] at h
    cases h
    simp at hs
  | n + 1, pos, l => by
    intro h s hs
    simp only [parseTdvfSections] at h
    split at h
    · cases h
    · split at h
      · cases h
      · split at h
        · cases h
        · split at h
          · cases h
          · split at h
            · cases h
            · rename_i h1 h2 h3 h4 h5
              cases hrec : parseTdvfSections fw (pos + 32) n with
              | error e => rw [hrec] at h; cases h
              | ok rest =>
                rw [hrec] at h
                simp only [Except.map] at h
                cases h
                rcases List.mem_cons.mp hs with rfl | hs2
                · dsimp only at h2 h3 h4 h5 ⊢
                  refine ⟨by omega, by omega, by omega, fun ha => by omega⟩
                · exact parseTdvfSections_sound fw n (pos + 32) rest hrec s hs2

/-- Taking the first 4 bytes of a 16-byte slice is the 4-byte slice. -/
theorem listSlice_prefix4 (l : List Nat) (o : Nat) :
    listSlice (listSlice l o 16) 0 4 = listSlice l o 4 := by
  simp [listSlice, List.take_take]

/-- C5: whenever `parseTdvfMetadata` succeeds, the footer GUID at the fixed
trailer offset matches, the table length is nonzero and within the bytes
before it, a descriptor with signature "TDVF" and version 1 exists, and
every returned section is 4-KiB-aligned with `rawDataSize ≤ memorySize` and
`memorySize ≤ rawDataSize` under the MR-extend attribute; contrapositively a
violation of any of these checks never yields a section list.  The second
part states the footer case of the error direction explicitly: a mismatched
footer GUID makes the parser return an error (and hence no sections). -/
theorem c5_parse_checks :
    (∀ (fw : List Nat) (meta : TdvfMetadata), parseTdvfMetadata fw = .ok meta →
      50 ≤ fw.length ∧
      listSlice fw (fw.length - 48) 16 = encodeGUID tableFooterGUID ∧
      leUint16 fw (fw.length - 50) ≠ 0 ∧
      leUint16 fw (fw.length - 50) ≤ fw.length - 50 ∧
      (∃ dOff, listSlice fw dOff 4 = utf8Bytes "TDVF" ∧
        leUint32 (listSlice fw dOff 16) 8 = 1) ∧
      (∀ s ∈ meta.sections, s.memoryAddress % 4096 = 0 ∧ s.memoryDataSize % 4096 = 0 ∧
        s.rawDataSize ≤ s.memoryDataSize ∧
        (s.attributes &&& 1 ≠ 0 → s.memoryDataSize ≤ s.rawDataSize))) ∧
    (∀ fw : List Nat, 50 ≤ fw.length →
      listSlice fw (fw.length - 48) 16 ≠ encodeGUID tableFooterGUID →
      ∃ e, parseTdvfMetadata fw = .error e) := by
  constructor
  · intro fw meta h
    simp only [parseTdvfMetadata] at h
    split at h
    · cases h
    · rename_i h50
      split at h
      · cases h
      · rename_i hguid
        split at h
        · cases h
        · rename_i hlen
          split at h
          · cases h
          · rename_i data heq
            split at h
            · cases h
            · rename_i hdata4
              split at h
              · cases h
              · rename_i hrawoff
                split at h
                · cases h
                · rename_i hdesc
                  split at h
                  · cases h
                  · rename_i hsig
                    split at h
                    · cases h
                    · rename_i hver
                      cases hsec : parseTdvfSections fw (fw.length -
                          leUint32 data (data.length - 4) + 16)
                          (leUint32 (listSlice fw
                            (fw.length - leUint32 data (data.length - 4)) 16) 12) with
                      | error e =>
                        rw [hsec] at h
                        cases h
                      | ok secs =>
                        rw [hsec] at h
                        simp only [Except.map] at h
                        cases h
                        have e1 : fw.length - 32 - 16 = fw.length - 48 := by omega
                        have e2 : fw.length - 32 - 18 = fw.length - 50 := by omega
                        rw [e1] at hguid
                        rw [e2] at hlen
                        push_neg at hlen
                        refine ⟨by omega, not_not.mp hguid, hlen.1, hlen.2, ?_, ?_⟩
                        · exact ⟨fw.length - leUint32 data (data.length - 4),
                            by rw [← listSlice_prefix4]; exact not_not.mp hsig,
                            not_not.mp hver⟩
                        · exact parseTdvfSections_sound fw _ _ secs hsec
  · intro fw h50 hne
    refine ⟨"malformed OVMF table footer", ?_⟩
    simp only [parseTdvfMetadata]
    rw [if_neg (by omega : ¬ fw.length < 50),
      show fw.length - 32 - 16 = fw.length - 48 from by omega, if_pos hne]

/-- Witness for C5: the success direction instantiated at the concrete
firmware `fw120`, and the footer-mismatch error direction at an all-zero
50-byte buffer. -/
theorem c5_parse_checks_witness :
    (50 ≤ fw120.length ∧
     listSlice fw120 (fw120.length - 48) 16 = encodeGUID tableFooterGUID ∧
     leUint16 fw120 (fw120.length - 50) ≠ 0 ∧
     leUint16 fw120 (fw120.length - 50) ≤ fw120.length - 50 ∧
     (∃ dOff, listSlice fw120 dOff 4 = utf8Bytes "TDVF" ∧
       leUint32 (listSlice fw120 dOff 16) 8 = 1) ∧
     (∀ s ∈ (TdvfMetadata.mk [fw120Section]).sections,
       s.memoryAddress % 4096 = 0 ∧ s.memoryDataSize % 4096 = 0 ∧
       s.rawDataSize ≤ s.memoryDataSize ∧
       (s.attributes &&& 1 ≠ 0 → s.memoryDataSize ≤ s.rawDataSize))) ∧
    (∃ e, parseTdvfMetadata (List.replicate 50 0) = .error e) :=
  ⟨c5_parse_checks.1 fw120 ⟨[fw120Section]⟩ rfl,
   c5_parse_checks.2 (List.replicate 50 0) (by decide) (by decide)⟩

/-- A page-add frame is 128 bytes when the page-augment attribute is clear. -/
theorem memPageAddFrame_length (s : TdvfSection) (p : Nat) (h : s.attributes &&& 2 = 0) :
    (memPageAddFrame s p).length = 128 := by
  simp [memPageAddFrame, h, u64le]

/-- An MR-extend chunk frame is at least 128 bytes long. -/
theorem mrExtendChunk_length_ge (fw : List Nat) (s : TdvfSection) (p i : Nat) :
    128 ≤ (mrExtendChunk fw s p i).length := by
  simp [mrExtendChunk, u64le, listSlice]

/-- Summing a pointwise sum of two functions over a list splits. -/
theorem sum_map_add {α : Type} (l : List α) (f g : α → Nat) :
    (l.map fun x => f x + g x).sum = (l.map f).sum + (l.map g).sum := by
  induction l with
  | nil => simp
  | cons a t ih => simp [ih]; omega

/-- The two MRTD variants stream the same number of bytes per section. -/
theorem sectionStream_length_eq (fw : List Nat) (s : TdvfSection) :
    (sectionStream fw s 0).length = (sectionStream fw s 1).length := by
  simp [sectionStream, List.length_flatten, List.map_map, Function.comp_def,
    List.length_append, sum_map_add]

/-- If the full event streams of the two variants coincide, they coincide
per section (segment lengths align, so `List.append_inj` peels sections). -/
theorem mrtdEventStream_pairwise (fw : List Nat) :
    ∀ (sections : List TdvfSection),
      mrtdEventStream fw sections 0 = mrtdEventStream fw sections 1 →
      ∀ s ∈ sections, sectionStream fw s 0 = sectionStream fw s 1 := by
  intro sections
  induction sections with
  | nil => intro _ s hs; simp at hs
  | cons a rest ih =>
    intro h s hs
    simp only [mrtdEventStream, List.map_cons, List.flatten_cons] at h
    obtain ⟨h1, h2⟩ := List.append_inj h (sectionStream_length_eq fw a)
    rcases List.mem_cons.mp hs with rfl | hs2
    · exact h1
    · exact ih h2 s hs2

/-- Byte 129 of the two-pass stream of a two-page section is the second
page-add frame's second tag byte, the "E" of "MEM.PAGE.ADD". -/
theorem sectionStream_v0_129 (fw : List Nat) (s : TdvfSection)
    (haug : s.attributes &&& 2 = 0) (m : Nat)
    (hn : s.memoryDataSize / 4096 = m + 2) :
    (sectionStream fw s 0)[129]? = some 69 := by
  simp only [sectionStream, hn, if_true]
  rw [List.range_succ_eq_map, List.range_succ_eq_map]
  simp only [List.map_cons, List.map_map, List.flatten_cons]
  have hA : ∀ p : Nat, (memPageAddFrame s p).length = 128 :=
    fun p => memPageAddFrame_length s p haug
  rw [List.getElem?_append_left (by simp [hA]; omega),
    List.getElem?_append_right (by simp [hA]),
    List.getElem?_append_left (by simp [hA])]
  simp [hA, memPageAddFrame, haug, u64le]

/-- Byte 129 of the single-pass stream of a two-page MR-extended section is
the first extend frame's second tag byte, the "R" of "MR.EXTEND". -/
theorem sectionStream_v1_129 (fw : List Nat) (s : TdvfSection)
    (hext : s.attributes &&& 1 ≠ 0) (haug : s.attributes &&& 2 = 0) (m : Nat)
    (hn : s.memoryDataSize / 4096 = m + 2) :
    (sectionStream fw s 1)[129]? = some 82 := by
  simp only [sectionStream, hn, if_neg (by norm_num : ¬ (1 : Nat) = 0)]
  rw [List.range_succ_eq_map]
  simp only [List.map_cons, List.map_map, List.flatten_cons]
  have hA : (memPageAddFrame s 0).length = 128 := memPageAddFrame_length s 0 haug
  have hE : 128 ≤ (mrExtendStream fw s 0).length := by
    simp only [mrExtendStream, if_pos hext]
    rw [List.range_succ_eq_map]
    simp only [List.map_cons, List.flatten_cons, List.length_append]
    have := mrExtendChunk_length_ge fw s 0 0
    omega
  rw [List.getElem?_append_left (by simp [List.length_append, hA]; omega),
    List.getElem?_append_right (by simp [List.length_append, hA])]
  simp only [mrExtendStream, if_pos hext]
  rw [List.range_succ_eq_map]
  simp only [List.map_cons, List.map_map, List.flatten_cons]
  rw [List.getElem?_append_left (by
    have := mrExtendChunk_length_ge fw s 0 0
    simp [hA]
    omega)]
  simp [hA, mrExtendChunk, u64le]

/-- A section with the MR-extend attribute set, the page-augment attribute
clear and at least two pages streams different bytes under the two
variants. -/
theorem sectionStream_ne (fw : List Nat) (s : TdvfSection)
    (hext : s.attributes &&& 1 ≠ 0) (haug : s.attributes &&& 2 = 0)
    (hp : 8192 ≤ s.memoryDataSize) :
    sectionStream fw s 0 ≠ sectionStream fw s 1 := by
  have h2 : 2 ≤ s.memoryDataSize / 4096 := by omega
  intro h
  have h0 := sectionStream_v0_129 fw s haug (s.memoryDataSize / 4096 - 2) (by omega)
  have h1 := sectionStream_v1_129 fw s hext haug (s.memoryDataSize / 4096 - 2) (by omega)
  rw [h, h1] at h0
  cases h0

/-- For a recognized variant the per-section loop streams the full event
stream. -/
theorem mrtdStreamChecked_eq (fw : List Nat) (variant : Nat)
    (hv : variant = 0 ∨ variant = 1) :
    ∀ sections, mrtdStreamChecked fw variant sections =
      some (mrtdEventStream fw sections variant)
  | [] => by simp [mrtdStreamChecked, mrtdEventStream]
  | s :: rest => by
    simp only [mrtdStreamChecked, if_pos hv, mrtdStreamChecked_eq fw variant hv rest]
    simp [mrtdEventStream]

/-- C8 counterexample: `fw120` parses to a metadata whose single section has
the MR-extend attribute set, yet the two-pass and single-pass MRTD variants
give the SAME digest (the section spans zero pages, so neither variant
streams any event), refuting the claim as stated. -/
theorem c8_mrtd_variants_counterexample :
    parseTdvfMetadata fw120 = .ok ⟨[fw120Section]⟩ ∧
    fw120Section.attributes &&& 1 ≠ 0 ∧
    computeMrtd fw120 ⟨[fw120Section]⟩ 0 = computeMrtd fw120 ⟨[fw120Section]⟩ 1 :=
  ⟨rfl, by decide, rfl⟩

/-- C8 amended: the two variants hash different byte streams (hence digests
of different inputs) whenever some parsed section has the MR-extend
attribute set, the page-augment attribute clear, and at least two 4-KiB
pages - not for merely "at least one MR-extend section", where both streams
can be empty and the digests equal; with at least one section present an
unrecognized variant is a hard error; and for the two recognized variants
the digest is the SHA-384 of the corresponding stream. -/
theorem c8_mrtd_variants_amended :
    (∀ (fw : List Nat) (meta : TdvfMetadata) (s : TdvfSection), s ∈ meta.sections →
      s.attributes &&& 1 ≠ 0 → s.attributes &&& 2 = 0 → 8192 ≤ s.memoryDataSize →
      mrtdEventStream fw meta.sections 0 ≠ mrtdEventStream fw meta.sections 1) ∧
    (∀ (fw : List Nat) (meta : TdvfMetadata) (variant : Nat), meta.sections ≠ [] →
      variant ≠ 0 → variant ≠ 1 → computeMrtd fw meta variant = none) ∧
    (∀ (fw : List Nat) (meta : TdvfMetadata) (variant : Nat),
      variant = 0 ∨ variant = 1 →
      computeMrtd fw meta variant =
        some (sha384 (mrtdEventStream fw meta.sections variant))) := by
  refine ⟨?_, ?_, ?_⟩
  · intro fw meta s hs hext haug hp heq
    exact sectionStream_ne fw s hext haug hp
      (mrtdEventStream_pairwise fw meta.sections heq s hs)
  · intro fw meta variant hne h0 h1
    cases hsec : meta.sections with
    | nil => exact absurd hsec hne
    | cons a rest => simp [computeMrtd, hsec, mrtdStreamChecked, h0, h1]
  · intro fw meta variant hv
    simp only [computeMrtd, mrtdStreamChecked_eq fw variant hv meta.sections,
      Option.map_some']

/-- Witness for the amended C8 at a concrete two-page MR-extend section. -/
theorem c8_mrtd_variants_amended_witness :
    mrtdEventStream [] [mrSec2] 0 ≠ mrtdEventStream [] [mrSec2] 1 ∧
    computeMrtd [] ⟨[mrSec2]⟩ 7 = none ∧
    computeMrtd [] ⟨[mrSec2]⟩ 0 = some (sha384 (mrtdEventStream [] [mrSec2] 0)) :=
  ⟨c8_mrtd_variants_amended.1 [] ⟨[mrSec2]⟩ mrSec2 (by simp) (by decide) (by decide)
     (by decide),
   c8_mrtd_variants_amended.2.1 [] ⟨[mrSec2]⟩ 7 (by simp) (by decide) (by decide),
   c8_mrtd_variants_amended.2.2 [] ⟨[mrSec2]⟩ 0 (Or.inl rfl)⟩

end DstackMr
